import Mathlib

/-!
Shallow embedding of the core of the `twin` application: the Letterboxd
profile normalizer (`src/server/letterboxd.ts`), the persona synthesizer
(`src/server/openai.ts`), the context-window selection and the streaming
chat route handler (`registerRoutes`, POST `/api/users/:id/messages`), and
the message store (`src/server/storage.ts`).  Effectful collaborators
(HTTP fetch, XML parse, the generative-model service, the database) are
modelled by environment values fixing the outcome of each call; the
control flow of each source function is translated line by line.
-/

namespace Twin

/-- The `rating` field of a processed Letterboxd item.  The source stores the
string `"{x}/5"` when the RSS item carried a `letterboxd:memberRating` and
the literal `"Watched"` otherwise, and later reads it back with
`parseFloat`; we keep the numeric value as a rational in the rated case. -/
inductive RatingStr where
  | rated (value : ℚ)
  | watched
deriving DecidableEq, Repr

/-- Value of the JS test `parseFloat(r.rating) >= t` in
`getLetterboxdProfile`: `parseFloat` reads the leading number of `"x/5"`,
and yields `NaN` on `"Watched"`, making the comparison false. -/
def ratingAtLeast (threshold : ℚ) : RatingStr → Bool
  | .rated v => threshold ≤ v
  | .watched => false

/-- One processed film entry (interface `LetterboxdRating` of
`src/server/letterboxd.ts`). -/
structure LetterboxdRating where
  title : String
  rating : RatingStr
  year : String
  genres : List String
deriving DecidableEq, Repr

/-- One `<item>` of the Letterboxd RSS feed, keeping exactly the fields
`getLetterboxdProfile` reads (`letterboxd:filmTitle`, `letterboxd:filmYear`,
`letterboxd:memberRating`, `letterboxd:filmGenres`); each may be absent.
The member rating carries the numeric value of the rating string. -/
structure RssItem where
  filmTitle : Option String
  filmYear : Option String
  memberRating : Option ℚ
  filmGenres : Option String
deriving DecidableEq, Repr

/-- The JS `String.prototype.split` on a one-character separator, as a
structural recursion over the character list: splitting the empty string
yields `[""]`, and each separator occurrence starts a new field. -/
def splitCharsAux (sep : Char) : List Char → List Char → List String
  | [], acc => [String.mk acc.reverse]
  | c :: cs, acc =>
      if c = sep then String.mk acc.reverse :: splitCharsAux sep cs []
      else splitCharsAux sep cs (c :: acc)

/-- `s.split(sep)` for a one-character separator. -/
def jsSplit (sep : Char) (s : String) : List String :=
  splitCharsAux sep s.data []

/-- The JS `String.prototype.trim`: strip whitespace from both ends. -/
def jsTrim (s : String) : String :=
  String.mk (((s.data.dropWhile fun c => c.isWhitespace).reverse.dropWhile
    fun c => c.isWhitespace).reverse)

/-- Genre list of one item:
`item['letterboxd:filmGenres']?.[0]?.split(',').map(g => g.trim()) || []`. -/
def itemGenres (item : RssItem) : List String :=
  match item.filmGenres with
  | none => []
  | some s => (jsSplit ',' s).map jsTrim

/-- Increment genre `g` in the insertion-ordered frequency table, appending a
new entry when the genre is absent: the JS object `genreFrequency`, whose
string keys enumerate in insertion order.  (JS would enumerate integer-like
keys first; such keys do not occur among genre names and are not modelled.) -/
def bumpGenre (g : String) : List (String × Nat) → List (String × Nat)
  | [] => [(g, 1)]
  | (k, n) :: rest => if k = g then (k, n + 1) :: rest else (k, n) :: bumpGenre g rest

/-- Fold the genres of one item into the frequency table: the
`genres.forEach` loop inside the item-processing `map`.  This runs for every
examined item, before and regardless of the missing-title early return. -/
def countItemGenres (acc : List (String × Nat)) (item : RssItem) : List (String × Nat) :=
  (itemGenres item).foldl (fun a g => bumpGenre g a) acc

/-- Frequency table accumulated over a list of items, in order. -/
def genreFrequencyOf (items : List RssItem) : List (String × Nat) :=
  items.foldl countItemGenres []

/-- Body of the item-processing `map` in `getLetterboxdProfile`: returns
`null` when the film title is missing, otherwise the processed entry; the
rating string is `"{rating}/5"` when a member rating is present and
`"Watched"` otherwise, and the year defaults to the empty string. -/
def processItem (item : RssItem) : Option LetterboxdRating :=
  match item.filmTitle with
  | none => none
  | some t =>
      some { title := t
             rating := match item.memberRating with
                       | some v => .rated v
                       | none => .watched
             year := item.filmYear.getD ""
             genres := itemGenres item }

/-- Insert one frequency entry into a list sorted by descending count,
placing it after every entry already present whose count is
greater-or-equal: one step of the stable descending sort performed by
`Object.entries(genreFrequency).sort(([, a], [, b]) => b - a)`
(JS `Array.prototype.sort` is stable). -/
def insertByCountDesc (x : String × Nat) : List (String × Nat) → List (String × Nat)
  | [] => [x]
  | y :: ys => if x.2 ≤ y.2 then y :: insertByCountDesc x ys else x :: y :: ys

/-- Stable sort of the frequency table by descending count: entries are
taken in first-seen order and each is inserted after all earlier entries of
greater-or-equal count. -/
def sortByCountDesc (l : List (String × Nat)) : List (String × Nat) :=
  l.foldl (fun acc x => insertByCountDesc x acc) []

/-- The `favoriteGenres` computation of `getLetterboxdProfile`:
sort entries by descending frequency, take 5, keep the genre names. -/
def favoriteGenresOf (freq : List (String × Nat)) : List String :=
  ((sortByCountDesc freq).take 5).map Prod.fst

/-- The literal `4.5` of the source, written as `mkRat 9 2` so that the
kernel can evaluate comparisons against it; `highRatingThreshold_eq_45`
below identifies it with the decimal literal. -/
def highRatingThreshold : ℚ := mkRat 9 2

/-- The `favoriteFilms` computation of `getLetterboxdProfile`:
`recentRatings.filter(r => parseFloat(r.rating) >= 4.5).map(r => r.title).slice(0, 5)`. -/
def favoriteFilmsOf (recentRatings : List LetterboxdRating) : List String :=
  ((recentRatings.filter fun r => ratingAtLeast highRatingThreshold r.rating).map
    (fun r => r.title)).take 5

/-- Result type of the profile normalizer (`LetterboxdResult` in the
source): a tagged union with exactly one variant populated. -/
inductive LetterboxdResult where
  | success (recentRatings : List LetterboxdRating) (favoriteGenres : List String)
      (favoriteFilms : List String)
  | error (message : String)
  | notProvided
deriving DecidableEq, Repr

/-- The `channel.item || []` part of a parsed RSS document. -/
structure RssChannel where
  items : List RssItem
deriving DecidableEq, Repr

/-- A thrown JS `Error`, with the `message` and `name` that the outer catch
of `getLetterboxdProfile` formats into its diagnostic. -/
structure JsError where
  message : String
  name : String
deriving DecidableEq, Repr

/-- Outcomes of the effects `getLetterboxdProfile` performs, fixed ahead of
a run: URL validation, the `axios.get` fetch (which may throw), and the
`parseXml` step on the fetched body (which may fail, or produce a document
whose `rss.channel[0]` may be missing). -/
structure LetterboxdEnv where
  urlValid : Bool
  fetch : Except JsError String
  parse : String → Except Unit (Option RssChannel)

/-- Shallow embedding of `getLetterboxdProfile` (src/server/letterboxd.ts):
a line-by-line translation of its control flow; every `return` site of the
source appears exactly once, and each effect outcome is read from `env`.
The outer `catch` (which receives anything thrown, in practice the axios
fetch error) formats the thrown error as `"message (name)"`. -/
def getLetterboxdProfile (env : LetterboxdEnv) : LetterboxdResult :=
  if !env.urlValid then .error "Invalid Letterboxd URL format"
  else
    match env.fetch with
    | .error e => .error (e.message ++ " (" ++ e.name ++ ")")
    | .ok body =>
      match env.parse body with
      | .error _ => .error "Invalid XML response from Letterboxd"
      | .ok none => .error "Invalid RSS data structure"
      | .ok (some channel) =>
        if channel.items.isEmpty then .error "No activity found in profile"
        else
          let considered := channel.items.take 20
          let freq := genreFrequencyOf considered
          let recentRatings := considered.filterMap processItem
          if recentRatings.isEmpty then .error "No valid ratings found in profile"
          else
            .success (recentRatings.take 10) (favoriteGenresOf freq)
              (favoriteFilmsOf recentRatings)

/-- Favorites component of a normalizer result. -/
def resultFavoriteFilms : LetterboxdResult → List String
  | .success _ _ f => f
  | _ => []

/-- Favorite-genres component of a normalizer result. -/
def resultFavoriteGenres : LetterboxdResult → List String
  | .success _ g _ => g
  | _ => []

/-- Parsed JSON body of the structured persona response, as
`JSON.parse(response.choices[0].message.content || "{}")` produces it:
each of the four fields may be absent (the source types the blob as `any`
and performs no validation). -/
structure ParsedPersona where
  interests : Option (List String)
  style : Option String
  traits : Option (List String)
  personalityInsight : Option String
deriving DecidableEq, Repr

/-- The value `generateTwinPersonality` returns: the spread of the parsed
blob, whose first three fields may therefore be absent, with
`personalityInsight` always overwritten by the insight text computed by
`analyzePersonality`. -/
structure TwinPersonality where
  interests : Option (List String)
  style : Option String
  traits : Option (List String)
  personalityInsight : String
deriving DecidableEq, Repr

/-- Shallow embedding of `analyzePersonality` (src/server/openai.ts).
`call` is the outcome of the upstream completion call: a thrown error, or a
response whose `choices[0].message.content` may be `null`.  The source has
no try/catch, so a thrown error propagates unchanged; on success it returns
`content || ""`, substituting the empty string for missing or empty
content. -/
def analyzePersonality (call : Except JsError (Option String)) : Except JsError String :=
  match call with
  | .error e => .error e
  | .ok content => .ok (content.getD "")

/-- Shallow embedding of `generateTwinPersonality` (src/server/openai.ts).
`insightCall` is the outcome of the completion call made inside
`analyzePersonality`; `personaCall` is the combined outcome of the second
completion call and the `JSON.parse` of its content (both throw on
failure; a `null` content parses as `"{}"`, the all-absent blob).  The
returned value is `{...data, personalityInsight}`: the parsed fields
unvalidated, with the insight text overriding the blob. -/
def generateTwinPersonality (insightCall : Except JsError (Option String))
    (personaCall : Except JsError ParsedPersona) : Except JsError TwinPersonality :=
  match analyzePersonality insightCall with
  | .error e => .error e
  | .ok insight =>
    match personaCall with
    | .error e => .error e
    | .ok data =>
        .ok { interests := data.interests
              style := data.style
              traits := data.traits
              personalityInsight := insight }

/-- What the twin-creation route (POST /api/users, src/unnamed/part_000)
persists via `storage.updateUserTwin`: the returned persona on success,
nothing when `generateTwinPersonality` throws (the catch answers 400). -/
def persistTwinOnCreate (gen : Except JsError TwinPersonality) : Option TwinPersonality :=
  match gen with
  | .ok twin => some twin
  | .error _ => none

/-- One stored message row (table `messages`): sender flag and text. -/
structure Message where
  fromUser : Bool
  content : String
deriving DecidableEq, Repr

/-- Formatting of one context line in the chat route:
`` `${m.fromUser ? "User" : user.name}: ${m.content}` ``. -/
def formatMessage (name : String) (m : Message) : String :=
  (if m.fromUser then "User" else name) ++ ": " ++ m.content

/-- Context selection of the chat route (src/unnamed/part_000):
`messages.slice(-5).map(...)` over the turn log returned by
`storage.getMessages` in creation order — the last five turns, order
preserved, each formatted with its speaker label. -/
def selectContext (name : String) (msgs : List Message) : List String :=
  (msgs.drop (msgs.length - 5)).map (formatMessage name)

/-- Fragments the `streamChatResponse` generator forwards for a given
sequence of `chunk.choices[0]?.delta?.content` values: absent (`none`) and
empty contents are skipped by `if (content)`. -/
def streamYields (deltas : List (Option String)) : List String :=
  (deltas.filterMap id).filter (fun s => s != "")

/-- How the streaming generation call ends: natural end-of-stream, or a
raised error (before the first fragment or between fragments). -/
inductive StreamOutcome where
  | completed
  | failed
deriving DecidableEq, Repr

/-- Observable steps of the handler for POST /api/users/:id/messages
(registerRoutes, src/unnamed/part_000), in execution order. -/
inductive ChatEvent where
  | persistUserMsg (content : String)
  | writeControl (userContent : String)
  | writeChunk (fragment : String)
  | persistTwinMsg (content : String)
  | endOk
  | endError (message : String)
  | notFound
deriving DecidableEq, Repr

/-- Shallow embedding of the chat route as its event trace.  The user is
looked up; if present, the user message is persisted first, then the JSON
control record is written, then the loop forwards each fragment with
`res.write` while accumulating `fullResponse`.  On natural end the
accumulated text is persisted as the twin turn and the response ends; if
the stream raises after `yields` fragments were forwarded, the catch sees
`res.writableEnded` still false and ends the response with the error
payload, persisting no twin turn. -/
def chatTrace (userExists : Bool) (content : String) (yields : List String)
    (outcome : StreamOutcome) : List ChatEvent :=
  if !userExists then [.notFound]
  else
    .persistUserMsg content :: .writeControl content ::
      (yields.map .writeChunk ++
        match outcome with
        | .completed => [.persistTwinMsg (String.join yields), .endOk]
        | .failed => [.endError "Failed to generate response"])

/-- Fragments written to the response transport, in order. -/
def writtenChunks (trace : List ChatEvent) : List String :=
  trace.filterMap fun e =>
    match e with
    | .writeChunk s => some s
    | _ => none

/-- Text persisted as the twin turn, if any. -/
def persistedTwin (trace : List ChatEvent) : Option String :=
  (trace.filterMap fun e =>
    match e with
    | .persistTwinMsg s => some s
    | _ => none).head?

/-- State of the `for await` loop of the chat route, run against a consumer
that will disconnect: `untilClose` counts the fragments the consumer still
receives before disconnecting, `written` the fragments that actually
reached it, `fullResponse` the accumulator, `requested` the fragments
pulled from the upstream generator so far. -/
structure LoopState where
  untilClose : Nat
  written : List String
  fullResponse : String
  requested : Nat
deriving DecidableEq, Repr

/-- One run of the loop body per remaining fragment: each iteration pulls
the next fragment from the upstream generator, writes it to the transport
(in Node, `res.write` on a response whose consumer disconnected discards
the data without a synchronous throw), and appends it to `fullResponse`.
The source installs no close handler and never aborts the upstream stream,
so nothing in the loop consults the transport state and the recursion never
exits early. -/
def runChatLoopFrom (st : LoopState) : List String → LoopState
  | [] => st
  | chunk :: rest =>
      runChatLoopFrom
        { untilClose := st.untilClose - 1
          written := if st.untilClose = 0 then st.written else st.written ++ [chunk]
          fullResponse := st.fullResponse ++ chunk
          requested := st.requested + 1 } rest

/-- The chat-route loop against a stub stream yielding `yields`, with a
consumer that disconnects after receiving `cancelAfter` fragments. -/
def runChatLoop (yields : List String) (cancelAfter : Nat) : LoopState :=
  runChatLoopFrom { untilClose := cancelAfter, written := [], fullResponse := "", requested := 0 }
    yields

/-- The kernel-computable threshold is the decimal literal of the source. -/
theorem highRatingThreshold_eq_45 : highRatingThreshold = (4.5 : ℚ) := by
  rw [highRatingThreshold, Rat.mkRat_eq_div]
  norm_num

example : ratingAtLeast highRatingThreshold (.rated 5) = true := by decide

example : getLetterboxdProfile
    { urlValid := true, fetch := .ok "b", parse := fun _ => .ok (some { items := [] }) }
    = .error "No activity found in profile" := by decide

/-- C2 counterexample: a structured response from which all parseable fields
are absent is returned as a success and persisted; no `MalformedPersonaError`
exists in the code. -/
theorem generateTwinPersonality_missing_fields_cex :
    generateTwinPersonality (.ok (some "insight text")) (.ok ⟨none, none, none, none⟩)
        = .ok ⟨none, none, none, "insight text"⟩ ∧
      persistTwinOnCreate
          (generateTwinPersonality (.ok (some "insight text")) (.ok ⟨none, none, none, none⟩))
        = some ⟨none, none, none, "insight text"⟩ :=
  ⟨rfl, rfl⟩

/-- C2 amended: `generateTwinPersonality` performs no schema validation on
the parsed structured response: whatever fields the blob carries (including
none at all) are returned as a success, with `personalityInsight` always set
from the insight call, and the route persists the result as-is. -/
theorem generateTwinPersonality_no_validation :
    ∀ (insight : String) (data : ParsedPersona),
      generateTwinPersonality (.ok (some insight)) (.ok data)
          = .ok ⟨data.interests, data.style, data.traits, insight⟩ ∧
        persistTwinOnCreate (generateTwinPersonality (.ok (some insight)) (.ok data))
          = some ⟨data.interests, data.style, data.traits, insight⟩ :=
  fun _ _ => ⟨rfl, rfl⟩

/-- C3 counterexample: when the upstream call succeeds with missing content,
`analyzePersonality` returns the empty string as a value instead of failing
with a `GenerationError`. -/
theorem analyzePersonality_empty_content_cex :
    analyzePersonality (.ok none) = .ok "" :=
  rfl

/-- C3 amended: if the upstream model call throws, `analyzePersonality`
propagates that error unchanged (there is no `GenerationError` wrapper); if
the call succeeds, missing or empty content is substituted by the empty
string (`content || ""`) and non-empty content is returned verbatim. -/
theorem analyzePersonality_defaults_and_propagates :
    (∀ e : JsError, analyzePersonality (.error e) = .error e) ∧
      analyzePersonality (.ok none) = .ok "" ∧
      analyzePersonality (.ok (some "")) = .ok "" ∧
      (∀ s : String, analyzePersonality (.ok (some s)) = .ok s) :=
  ⟨fun _ => rfl, rfl, rfl, fun _ => rfl⟩

/-- C6: context selection takes the most recent five turns of the log in
creation order (a suffix of the formatted log, never reversed), formats each
as `"{speakerLabel}: {text}"` with the literal `User` or the twin name, and
on an eight-turn log returns turns four through eight in original order. -/
theorem selectContext_last_five_in_order :
    (∀ (name : String) (msgs : List Message),
        List.IsSuffix (selectContext name msgs) (msgs.map (formatMessage name)) ∧
          (selectContext name msgs).length = min 5 msgs.length) ∧
      (∀ (name : String) (m1 m2 m3 m4 m5 m6 m7 m8 : Message),
          selectContext name [m1, m2, m3, m4, m5, m6, m7, m8]
            = [formatMessage name m4, formatMessage name m5, formatMessage name m6,
                formatMessage name m7, formatMessage name m8]) := by
  refine ⟨fun name msgs => ⟨?_, ?_⟩, fun name m1 m2 m3 m4 m5 m6 m7 m8 => rfl⟩
  · rw [selectContext, List.map_drop]
    exact List.drop_suffix _ _
  · simp only [selectContext, List.length_map, List.length_drop]
    omega

/-- Fragments forwarded by the chat route are exactly the fragments the
stream yielded, whatever the outcome. -/
theorem writtenChunks_chatTrace (c : String) (yields : List String) (o : StreamOutcome) :
    writtenChunks (chatTrace true c yields o) = yields := by
  cases o <;>
    simp [chatTrace, writtenChunks, List.filterMap_append, List.filterMap_map, Function.comp_def]

/-- On natural end of stream, the persisted twin turn is the join of the
yielded fragments. -/
theorem persistedTwin_chatTrace_completed (c : String) (yields : List String) :
    persistedTwin (chatTrace true c yields .completed) = some (String.join yields) := by
  simp [chatTrace, persistedTwin, List.filterMap_append, List.filterMap_map, Function.comp_def]

/-- On a stream failure no twin turn is persisted. -/
theorem persistedTwin_chatTrace_failed (c : String) (yields : List String) :
    persistedTwin (chatTrace true c yields .failed) = none := by
  simp [chatTrace, persistedTwin, List.filterMap_append, List.filterMap_map, Function.comp_def]

/-- C1: for a normally completing chat request, the fragments reach the
consumer in arrival order and the persisted twin turn is byte-identical to
their concatenation; on the stub stream `["Hel", "lo", " there"]` the
consumer receives exactly those fragments and the persisted text is
`"Hello there"`. -/
theorem chat_persisted_text_matches_stream :
    (∀ (c : String) (yields : List String),
        writtenChunks (chatTrace true c yields .completed) = yields ∧
          persistedTwin (chatTrace true c yields .completed)
            = some (String.join (writtenChunks (chatTrace true c yields .completed)))) ∧
      writtenChunks (chatTrace true "Hi" ["Hel", "lo", " there"] .completed)
        = ["Hel", "lo", " there"] ∧
      persistedTwin (chatTrace true "Hi" ["Hel", "lo", " there"] .completed)
        = some "Hello there" := by
  refine ⟨fun c yields => ⟨writtenChunks_chatTrace c yields .completed, ?_⟩, ?_, ?_⟩
  · rw [writtenChunks_chatTrace, persistedTwin_chatTrace_completed]
  · exact writtenChunks_chatTrace "Hi" ["Hel", "lo", " there"] .completed
  · rw [persistedTwin_chatTrace_completed]
    rfl

/-- C8: when the stream fails after at least one fragment was forwarded, the
trace keeps every forwarded fragment in order (nothing is retracted or
suppressed), the only failure signal is the terminal end-of-stream error
write, and no twin turn is persisted. -/
theorem chat_midstream_failure_preserves_fragments :
    ∀ (c y : String) (ys : List String),
      chatTrace true c (y :: ys) .failed
          = .persistUserMsg c :: .writeControl c ::
              ((y :: ys).map .writeChunk ++ [.endError "Failed to generate response"]) ∧
        writtenChunks (chatTrace true c (y :: ys) .failed) = y :: ys ∧
        persistedTwin (chatTrace true c (y :: ys) .failed) = none := by
  intro c y ys
  exact ⟨rfl, writtenChunks_chatTrace c (y :: ys) .failed,
    persistedTwin_chatTrace_failed c (y :: ys)⟩

/-- C10: for an existing user the user turn is persisted as the very first
step, before the control record and before any fragment is forwarded, in
the failing trace exactly as in the completing one; only the twin turn is
withheld on failure. -/
theorem chat_user_turn_persisted_first :
    ∀ (c : String) (yields : List String),
      (chatTrace true c yields .completed).head? = some (.persistUserMsg c) ∧
        (chatTrace true c yields .failed).head? = some (.persistUserMsg c) ∧
        ChatEvent.persistUserMsg c ∈ chatTrace true c yields .failed ∧
        persistedTwin (chatTrace true c yields .failed) = none ∧
        persistedTwin (chatTrace true c yields .completed) = some (String.join yields) := by
  intro c yields
  refine ⟨rfl, rfl, ?_, persistedTwin_chatTrace_failed c yields,
    persistedTwin_chatTrace_completed c yields⟩
  simp [chatTrace]

/-- The loop pulls one more fragment per remaining stream element,
irrespective of the transport state. -/
theorem runChatLoopFrom_requested (l : List String) :
    ∀ st : LoopState, (runChatLoopFrom st l).requested = st.requested + l.length := by
  induction l with
  | nil => intro st; simp [runChatLoopFrom]
  | cons c cs ih =>
      intro st
      rw [runChatLoopFrom, ih]
      simp
      omega

/-- The fragments that reach the consumer are those pulled while it was
still connected. -/
theorem runChatLoopFrom_written (l : List String) :
    ∀ st : LoopState, (runChatLoopFrom st l).written = st.written ++ l.take st.untilClose := by
  induction l with
  | nil => intro st; simp [runChatLoopFrom]
  | cons c cs ih =>
      intro st
      rw [runChatLoopFrom, ih]
      rcases h : st.untilClose with _ | k
      · simp [h]
      · simp [h, List.take_succ_cons]

/-- The accumulator threads every pulled fragment, connected consumer or
not. -/
theorem runChatLoopFrom_fullResponse (l : List String) :
    ∀ st : LoopState,
      (runChatLoopFrom st l).fullResponse = l.foldl (fun a c => a ++ c) st.fullResponse := by
  induction l with
  | nil => intro st; simp [runChatLoopFrom]
  | cons c cs ih =>
      intro st
      rw [runChatLoopFrom, ih]
      rfl

/-- C9 counterexample: with a stub stream of two fragments and a consumer
that cancels after receiving the first, the loop still pulls the second
fragment from the upstream call — the route installs no disconnect handler
and never aborts the upstream stream. -/
theorem chat_loop_cancellation_cex :
    ¬ (runChatLoop ["a", "b"] 1).requested ≤ 1 := by
  decide

/-- C9 amended: consumer cancellation does not stop the loop: every
fragment of the upstream stream is still requested, only the fragments
pulled before the disconnect reach the consumer, and the full concatenation
of all fragments is still accumulated (and hence persisted as the twin
turn when the stream then ends normally). -/
theorem chat_loop_ignores_cancellation :
    ∀ (yields : List String) (cancelAfter : Nat),
      (runChatLoop yields cancelAfter).requested = yields.length ∧
        (runChatLoop yields cancelAfter).written = yields.take cancelAfter ∧
        (runChatLoop yields cancelAfter).fullResponse = String.join yields := by
  intro yields cancelAfter
  refine ⟨?_, ?_, ?_⟩
  · rw [runChatLoop, runChatLoopFrom_requested]
    simp
  · rw [runChatLoop, runChatLoopFrom_written]
    rfl
  · rw [runChatLoop, runChatLoopFrom_fullResponse]
    rfl

/-- C7: the profile normalizer is a total function into the result union:
for every environment it returns either the error variant (carrying a
message) or the success variant; in particular a thrown fetch error and a
parse failure each map to the error variant with the corresponding
diagnostic, and `notProvided` is never produced here. -/
theorem getLetterboxdProfile_never_throws :
    (∀ env : LetterboxdEnv,
        (∃ m, getLetterboxdProfile env = .error m) ∨
          ∃ r g f, getLetterboxdProfile env = .success r g f) ∧
      (∀ (e : JsError) (p : String → Except Unit (Option RssChannel)),
          getLetterboxdProfile ⟨true, .error e, p⟩
            = .error (e.message ++ " (" ++ e.name ++ ")")) ∧
      (∀ body : String,
          getLetterboxdProfile ⟨true, .ok body, fun _ => .error ()⟩
            = .error "Invalid XML response from Letterboxd") ∧
      (∀ p : String → Except Unit (Option RssChannel),
          getLetterboxdProfile ⟨false, .ok "", p⟩ = .error "Invalid Letterboxd URL format") := by
  refine ⟨?_, fun e p => rfl, fun body => rfl, fun p => rfl⟩
  intro env
  unfold getLetterboxdProfile
  split
  · exact Or.inl ⟨_, rfl⟩
  · split
    · exact Or.inl ⟨_, rfl⟩
    · split
      · exact Or.inl ⟨_, rfl⟩
      · exact Or.inl ⟨_, rfl⟩
      · split
        · exact Or.inl ⟨_, rfl⟩
        · dsimp only
          split
          · exact Or.inl ⟨_, rfl⟩
          · exact Or.inr ⟨_, _, _, rfl⟩

/-- Everything `insertByCountDesc` puts into the table was either the
inserted entry or already present. -/
theorem mem_insertByCountDesc {x y : String × Nat} :
    ∀ {l : List (String × Nat)}, y ∈ insertByCountDesc x l → y = x ∨ y ∈ l := by
  intro l
  induction l with
  | nil =>
      intro h
      simp only [insertByCountDesc] at h
      exact Or.inl (List.mem_singleton.mp h)
  | cons z zs ih =>
      intro h
      simp only [insertByCountDesc] at h
      split at h
      · rcases List.mem_cons.mp h with h1 | h1
        · exact Or.inr (h1 ▸ List.mem_cons_self z zs)
        · rcases ih h1 with h2 | h2
          · exact Or.inl h2
          · exact Or.inr (List.mem_cons_of_mem z h2)
      · rcases List.mem_cons.mp h with h1 | h1
        · exact Or.inl h1
        · exact Or.inr h1

/-- Inserting into a table sorted by descending count keeps it sorted. -/
theorem pairwise_insertByCountDesc {x : String × Nat} :
    ∀ {l : List (String × Nat)}, l.Pairwise (fun a b => b.2 ≤ a.2) →
      (insertByCountDesc x l).Pairwise (fun a b => b.2 ≤ a.2) := by
  intro l
  induction l with
  | nil =>
      intro _
      simp [insertByCountDesc]
  | cons z zs ih =>
      intro h
      rcases List.pairwise_cons.mp h with ⟨hz, hzs⟩
      simp only [insertByCountDesc]
      split
      · rename_i hle
        refine List.pairwise_cons.mpr ⟨?_, ih hzs⟩
        intro b hb
        rcases mem_insertByCountDesc hb with rfl | hb
        · exact hle
        · exact hz b hb
      · rename_i hgt
        refine List.pairwise_cons.mpr ⟨?_, h⟩
        intro b hb
        rcases List.mem_cons.mp hb with rfl | hb
        · exact Nat.le_of_not_le hgt
        · exact Nat.le_trans (hz b hb) (Nat.le_of_not_le hgt)

/-- Inserting is a permutation step. -/
theorem perm_insertByCountDesc (x : String × Nat) :
    ∀ l : List (String × Nat), List.Perm (insertByCountDesc x l) (x :: l) := by
  intro l
  induction l with
  | nil => simp [insertByCountDesc]
  | cons z zs ih =>
      simp only [insertByCountDesc]
      split
      · exact ((ih.cons z).trans (List.Perm.swap x z zs))
      · exact List.Perm.refl _

/-- The stable descending sort always yields a table sorted by descending
count. -/
theorem pairwise_sortByCountDesc (l : List (String × Nat)) :
    (sortByCountDesc l).Pairwise (fun a b => b.2 ≤ a.2) := by
  rw [sortByCountDesc]
  suffices h : ∀ acc : List (String × Nat), acc.Pairwise (fun a b => b.2 ≤ a.2) →
      (l.foldl (fun acc x => insertByCountDesc x acc) acc).Pairwise (fun a b => b.2 ≤ a.2) by
    exact h [] (by simp)
  induction l with
  | nil => intro acc hacc; exact hacc
  | cons x xs ih =>
      intro acc hacc
      exact ih _ (pairwise_insertByCountDesc hacc)

/-- The stable descending sort permutes the table: no entry appears or
disappears. -/
theorem perm_sortByCountDesc (l : List (String × Nat)) :
    List.Perm (sortByCountDesc l) l := by
  rw [sortByCountDesc]
  suffices h : ∀ acc : List (String × Nat),
      List.Perm (l.foldl (fun acc x => insertByCountDesc x acc) acc) (acc ++ l) by
    simpa using h []
  induction l with
  | nil => intro acc; simp
  | cons x xs ih =>
      intro acc
      simp only [List.foldl_cons]
      refine (ih (insertByCountDesc x acc)).trans ?_
      refine (List.Perm.append_right xs (perm_insertByCountDesc x acc)).trans ?_
      simpa using List.perm_middle.symm

/-- Favorites policy as the spec words it: processed items whose rating
meets or exceeds ninety percent of the maximum of the five-star scale, kept
in source order, capped at 5, with no secondary sort. -/
def favoriteFilmsSpecPolicy (rs : List LetterboxdRating) : List String :=
  ((rs.filter fun r =>
      match r.rating with
      | .rated v => decide ((9 / 10 : ℚ) * 5 ≤ v)
      | .watched => false).map (fun r => r.title)).take 5

/-- A three-item feed rated 5/5, 4.5/5 and 3/5, most recent first. -/
def sampleFilmItems : List RssItem :=
  [{ filmTitle := some "Alpha", filmYear := some "2001", memberRating := some 5,
     filmGenres := some "Drama" },
   { filmTitle := some "Beta", filmYear := some "2002", memberRating := some (mkRat 9 2),
     filmGenres := some "Comedy" },
   { filmTitle := some "Gamma", filmYear := some "2003", memberRating := some 3,
     filmGenres := some "Horror" }]

/-- Environment: valid URL, successful fetch, feed parsing to
`sampleFilmItems`. -/
def sampleFilmEnv : LetterboxdEnv :=
  { urlValid := true
    fetch := .ok "rss-body"
    parse := fun _ => .ok (some { items := sampleFilmItems }) }

/-- C4: the favorites list is exactly the processed items whose rating
meets the 90-percent-of-scale threshold (4.5 on the 0-5 scale), in original
source order (a sublist of the titles in source order, so no secondary sort
by rating), capped at 5; on the feed rated 5/5, 4.5/5, 3/5 it is exactly
the 5/5 and 4.5/5 titles in that order. -/
theorem favoriteFilms_high_rating_policy :
    (∀ rs : List LetterboxdRating, favoriteFilmsOf rs = favoriteFilmsSpecPolicy rs) ∧
      (∀ rs : List LetterboxdRating,
          List.Sublist (favoriteFilmsOf rs) (rs.map fun r => r.title)) ∧
      (∀ rs : List LetterboxdRating, (favoriteFilmsOf rs).length ≤ 5) ∧
      resultFavoriteFilms (getLetterboxdProfile sampleFilmEnv) = ["Alpha", "Beta"] := by
  have hpred : ∀ r : LetterboxdRating,
      ratingAtLeast highRatingThreshold r.rating
        = (match r.rating with
           | .rated v => decide ((9 / 10 : ℚ) * 5 ≤ v)
           | .watched => false) := by
    intro r
    cases hr : r.rating with
    | rated v =>
        simp only [ratingAtLeast, highRatingThreshold_eq_45,
          show (9 / 10 : ℚ) * 5 = 4.5 by norm_num]
    | watched => rfl
  refine ⟨?_, ?_, ?_, by decide⟩
  · intro rs
    rw [favoriteFilmsOf, favoriteFilmsSpecPolicy, List.filter_congr fun r _ => hpred r]
  · intro rs
    exact (List.take_sublist _ _).trans ((List.filter_sublist rs).map _)
  · intro rs
    rw [favoriteFilmsOf]
    simp

/-- A three-item feed tagged with genres A,B then A,C then A. -/
def sampleGenreItems : List RssItem :=
  [{ filmTitle := some "First", filmYear := none, memberRating := some 5,
     filmGenres := some "A,B" },
   { filmTitle := some "Second", filmYear := none, memberRating := some 4,
     filmGenres := some "A,C" },
   { filmTitle := some "Third", filmYear := none, memberRating := some 3,
     filmGenres := some "A" }]

/-- Environment: valid URL, successful fetch, feed parsing to
`sampleGenreItems`. -/
def sampleGenreEnv : LetterboxdEnv :=
  { urlValid := true
    fetch := .ok "rss-body"
    parse := fun _ => .ok (some { items := sampleGenreItems }) }

/-- C5: the favorite-genres list ranks the genres of all examined items by
descending frequency (the sorted table is pairwise descending and a
permutation of the first-seen-ordered frequency table, so the stable sort
breaks ties by first-seen order), capped at 5; items tagged A,B then A,C
then A rank as A, B, C. -/
theorem favoriteGenres_frequency_ranking :
    (∀ freq : List (String × Nat),
        (sortByCountDesc freq).Pairwise (fun a b => b.2 ≤ a.2) ∧
          List.Perm (sortByCountDesc freq) freq ∧
          favoriteGenresOf freq = ((sortByCountDesc freq).take 5).map Prod.fst ∧
          (favoriteGenresOf freq).length ≤ 5) ∧
      resultFavoriteGenres (getLetterboxdProfile sampleGenreEnv) = ["A", "B", "C"] := by
  refine ⟨fun freq => ⟨pairwise_sortByCountDesc freq, perm_sortByCountDesc freq, rfl, ?_⟩,
    by decide⟩
  rw [favoriteGenresOf]
  simp

end Twin
